import Mathlib

/-!
# Verification of the accessories sales/inventory aggregation pipelines

Shallow embedding of the classification, aggregation, serialization and
snapshot-merge logic of the repository:

* `scripts/sales_aggregation.py` — the generated Snowflake SQL
  (`build_sales_aggregation_query`) and the Python accumulation loop
  (`aggregate_sales_from_snowflake`);
* `scripts/inventory_aggregation.py` — the generated SQL
  (`build_inventory_aggregation_query`) and the Python accumulation loop
  (`aggregate_inventory_from_snowflake`);
* `scripts/preprocess_sales.py` — JSON shaping (`convert_sales_to_json_structure`);
* `scripts/preprocess_inventory.py` — JSON shaping (`convert_to_json`) and the
  frozen-snapshot merge in `main`.

Numeric amounts (Python `float`, SQL numbers) are idealized as `ℚ`.
SQL `NULL` is modelled with `Option`.
-/

/-! ## SQL scalar helpers -/

/-- Digits of a decimal string to a natural number (helper for `parseIntString`). -/
def digitsToNat (l : List Char) : Nat :=
  l.foldl (fun n c => 10 * n + (c.toNat - 48)) 0

/-- Integer parsing of a string: an optional sign followed by at least one digit.
Embeds Snowflake `TRY_TO_NUMBER` restricted to integer-formatted inputs (the only
inputs this code base feeds it: two-digit runs, `LEFT(sesn, 2)`, `row_yy`);
any other string yields `none`, as `TRY_TO_NUMBER` yields `NULL` on non-numbers. -/
def parseIntString (s : String) : Option Int :=
  match s.data with
  | [] => none
  | '-' :: rest =>
      if !rest.isEmpty && rest.all Char.isDigit then some (-(digitsToNat rest : Int)) else none
  | '+' :: rest =>
      if !rest.isEmpty && rest.all Char.isDigit then some ((digitsToNat rest : Int)) else none
  | l => if l.all Char.isDigit then some ((digitsToNat l : Int)) else none

/-- Snowflake `TRY_TO_NUMBER` lifted to nullable strings (`NULL` in, `NULL` out). -/
def tryToNumber (o : Option String) : Option Int :=
  o.bind parseIntString

/-- First run of two consecutive digits in a character list, scanning left to right. -/
def firstTwoDigitRun : List Char → Option String
  | c1 :: c2 :: rest =>
      if c1.isDigit && c2.isDigit then some (String.mk [c1, c2])
      else firstTwoDigitRun (c2 :: rest)
  | _ => none

/-- Embeds Snowflake `REGEXP_SUBSTR(s, '\d\x7b2\x7d')`: the first (leftmost)
substring consisting of two consecutive digits, `NULL` if none exists. -/
def regexpSubstrTwoDigits (s : String) : Option String :=
  firstTwoDigitRun s.data

/-- SQL `a >= b` on nullable numbers: `NULL` operands make the comparison
non-true (a SQL `NULL` condition is not satisfied in a `CASE WHEN`). -/
def sqlGE (a b : Option Int) : Bool :=
  match a, b with
  | some x, some y => decide (y ≤ x)
  | _, _ => false

/-! ## Date/string formatting helpers

`String` comparison, slicing and trimming are implemented over the character
list (`String.data`).  This matches Python/Snowflake semantics — both compare
strings lexicographically by code point — and keeps every definition
kernel-evaluable. -/

/-- Lexicographic (code-point) `s ≤ t` on character lists. -/
def strLeList : List Char → List Char → Bool
  | [], _ => true
  | _ :: _, [] => false
  | a :: as, b :: bs =>
      if a.toNat < b.toNat then true
      else if a.toNat == b.toNat then strLeList as bs
      else false

/-- Lexicographic (code-point) string comparison `s ≤ t`, as used by Python
string `<=` and SQL string comparison. -/
def strLe (s t : String) : Bool :=
  strLeList s.data t.data

/-- First `n` characters of a string (`LEFT(s, n)` / Python `s[:n]`). -/
def strTake (s : String) (n : Nat) : String :=
  String.mk (s.data.take n)

/-- String without its first `n` characters (Python `s[n:]`). -/
def strDrop (s : String) (n : Nat) : String :=
  String.mk (s.data.drop n)

/-- SQL `TRIM`: strip leading and trailing blanks. -/
def sqlTrim (s : String) : String :=
  String.mk ((((s.data.dropWhile (fun c => c == ' ')).reverse).dropWhile
    (fun c => c == ' ')).reverse)

/-! ## Core/outlet classification (identical `CASE` expression in
`build_sales_aggregation_query`, sales_aggregation.py lines 138–155, and
`build_inventory_aggregation_query`, inventory_aggregation.py lines 112–129) -/

/-- The "core" vocabulary of operational-standard strings. -/
def coreVocab : List String := ["FOCUS", "INTRO"]

/-- The "outlet" vocabulary of operational-standard strings. -/
def outletVocab : List String := ["OUTLET", "CARE", "DONE"]

/-- The `product_type` CASE expression, shared verbatim by the sales and the
inventory query:

1. `op_std IN ('FOCUS','INTRO')` → core; `op_std IN ('OUTLET','CARE','DONE')` → outlet;
2. otherwise, when `op_std IS NOT NULL` (and hence not in either vocabulary):
   `TRY_TO_NUMBER(REGEXP_SUBSTR(op_std,'\d\x7b2\x7d')) >= TRY_TO_NUMBER(row_yy)` → core, else outlet;
3. when `op_std IS NULL`: `TRY_TO_NUMBER(LEFT(sesn,2)) >= TRY_TO_NUMBER(row_yy)` → core;
4. else outlet. -/
def classifyProductType (opStd sesn : Option String) (rowYY : String) : String :=
  match opStd with
  | some s =>
      if s ∈ coreVocab then "core"
      else if s ∈ outletVocab then "outlet"
      else if sqlGE (tryToNumber (regexpSubstrTwoDigits s)) (tryToNumber (some rowYY)) then "core"
      else "outlet"
  | none =>
      if sqlGE (tryToNumber (sesn.map (fun t => strTake t 2))) (tryToNumber (some rowYY)) then "core"
      else "outlet"

/-! ## Remark-slot computation -/

/-- Linear month index `12*y + m` (months since year 0), for month differences. -/
def monthIndex (y m : Nat) : Int :=
  12 * (y : Int) + (m : Int)

/-- Inventory pipeline slot number (inventory_aggregation.py line 54):
`FLOOR(DATEDIFF('month', TO_DATE('202312','YYYYMM'), month) / 3) + 1`,
i.e. floored division of the month difference from the 2023-12 epoch by 3, plus one. -/
def invRemarkNum (y m : Nat) : Int :=
  (monthIndex y m - monthIndex 2023 12).fdiv 3 + 1

/-- First month of the calendar quarter containing month `m` (1-based),
embedding `DATE_TRUNC('QUARTER', …)` on the month component. -/
def quarterStartMonth (m : Nat) : Nat :=
  3 * ((m - 1) / 3) + 1

/-- The `remark_normalized` CTE of the sales query (sales_aggregation.py
lines 51–82): quarter start dates 2024-01-01 … 2025-10-01 paired with remark
slot indices 1 … 8. -/
def salesQuarterTable : List ((Nat × Nat) × Nat) :=
  [((2024, 1), 1), ((2024, 4), 2), ((2024, 7), 3), ((2024, 10), 4),
   ((2025, 1), 5), ((2025, 4), 6), ((2025, 7), 7), ((2025, 10), 8)]

/-- Sales pipeline remark slot for an event in year `y`, month `m`: the slot
joined via `DATE_TRUNC('QUARTER', sale_dt) = q_start_dt`; `none` when the
quarter is not in `remark_normalized` (the join then finds no row). -/
def salesRemarkIdx (y m : Nat) : Option Nat :=
  salesQuarterTable.lookup (y, quarterStartMonth m)

/-- Two-digit zero-padded representation of a month number. -/
def pad2 (n : Nat) : String :=
  if n < 10 then "0" ++ toString n else toString n

/-- Embeds `TO_CHAR(date, 'YYYYMM')` for a (year, month) pair. -/
def yyyymm (y m : Nat) : String :=
  toString y ++ pad2 m

/-- Embeds `SUBSTR(TO_CHAR(sale_dt,'YYYY'), 3, 2)`: the last two digits of a
(four-digit) year, as a string. -/
def rowYYOfYear (y : Nat) : String :=
  strTake (strDrop (toString y) 2) 2

/-- Embeds `SUBSTR(yymm, 3, 2)` on a `YYYYMM` string. -/
def rowYYOfYYMM (ym : String) : String :=
  strTake (strDrop ym 2) 2

/-- Display month `YYYY.MM` from `YYYYMM` (the f-string of both loaders). -/
def monthDisplay (ym : String) : String :=
  strTake ym 4 ++ "." ++ strTake (strDrop ym 4) 2

/-! ## Raw (joined) warehouse rows

A raw row models one row of `sales_with_master` / `stock_with_master`
*before* the `WHERE` clause: the transaction/snapshot row already joined to
the product master (parent kind, category name, the 15 remark slots) and to
the latest shop-channel mapping (`fr_or_cls`, `NULL` when the shop has no
mapping). -/

structure RawSalesRow where
  saleYear : Nat
  saleMonth : Nat
  shopChannel : Option String
  brdCd : String
  sesn : Option String
  tagAmt : ℚ
  parentPrdtKindCd : String
  prdtKindNmEn : String
  remark : Nat → Option String

structure RawStockRow where
  year : Nat
  month : Nat
  shopChannel : Option String
  brdCd : String
  sesn : Option String
  stockQtyExpected : ℚ
  stockTagAmtExpected : ℚ
  parentPrdtKindCd : String
  prdtKindNmEn : String
  remark : Nat → Option String

/-- Membership of a nullable string in a list (SQL `x IN (…)`; `NULL` fails). -/
def optMem (o : Option String) (l : List String) : Bool :=
  match o with
  | some s => l.contains s
  | none => false

/-- The four item categories kept by both queries (`prdt_kind_nm_en IN (…)`). -/
def itemCategories : List String := ["Shoes", "Headwear", "Bag", "Acc_etc"]

/-- The `WHERE` clause of `sales_with_master` (sales_aggregation.py lines 109–114):
month bounds, brand codes M/I/X, accessories parent kind `A`, the four item
categories, and shop channel in FR/OR (HQ and unmapped shops excluded). -/
def salesWhere (startMonth endMonth : String) (r : RawSalesRow) : Bool :=
  strLe startMonth (yyyymm r.saleYear r.saleMonth)
    && strLe (yyyymm r.saleYear r.saleMonth) endMonth
    && ["M", "I", "X"].contains r.brdCd
    && r.parentPrdtKindCd == "A"
    && itemCategories.contains r.prdtKindNmEn
    && optMem r.shopChannel ["FR", "OR"]

/-- The `WHERE` clause of `stock_with_master` (inventory_aggregation.py lines 68–73):
as for sales but with shop channel in FR/OR/HQ. -/
def invWhere (startMonth endMonth : String) (r : RawStockRow) : Bool :=
  strLe startMonth (yyyymm r.year r.month)
    && strLe (yyyymm r.year r.month) endMonth
    && ["M", "I", "X"].contains r.brdCd
    && r.parentPrdtKindCd == "A"
    && itemCategories.contains r.prdtKindNmEn
    && optMem r.shopChannel ["FR", "OR", "HQ"]

/-- Sales `op_std`: the `LEFT JOIN remark_normalized` on
`(prdt_scs_cd, q_start_dt)`.  The CTE only contains slots whose remark is
non-`NULL` with non-empty `TRIM`; a quarter outside the table yields `NULL`. -/
def salesOpStd (r : RawSalesRow) : Option String :=
  match salesRemarkIdx r.saleYear r.saleMonth with
  | some i =>
      match r.remark i with
      | some s => if sqlTrim s == "" then none else some s
      | none => none
  | none => none

/-- Inventory row-level slot filter (inventory_aggregation.py line 99):
`WHERE remark_num >= 1 AND remark_num <= 15`. -/
def invSlotOK (r : RawStockRow) : Bool :=
  decide (1 ≤ invRemarkNum r.year r.month) && decide (invRemarkNum r.year r.month ≤ 15)

/-- Inventory `op_std`: `CASE remark_num WHEN 1 THEN remark1 … WHEN 15 THEN
remark15 ELSE NULL END` (inventory_aggregation.py lines 80–97). -/
def invOpStd (r : RawStockRow) : Option String :=
  let n := invRemarkNum r.year r.month
  if 1 ≤ n ∧ n ≤ 15 then r.remark n.toNat else none

/-! ## Classified rows and the final SQL `GROUP BY` -/

structure ClassifiedSalesRow where
  saleYM : String
  brdCd : String
  prdtKindNmEn : String
  frOrCls : String
  productType : String
  tagAmt : ℚ
deriving DecidableEq

structure ClassifiedStockRow where
  yymm : String
  brdCd : String
  prdtKindNmEn : String
  frOrCls : String
  productType : String
  stockTagAmtExpected : ℚ
  stockQtyExpected : ℚ
deriving DecidableEq

/-- Embeds `sales_classified`: classify one sales row (row_yy is
`SUBSTR(TO_CHAR(sale_dt,'YYYY'),3,2)`). -/
def classifySalesRow (r : RawSalesRow) : ClassifiedSalesRow :=
  { saleYM := yyyymm r.saleYear r.saleMonth
    brdCd := r.brdCd
    prdtKindNmEn := r.prdtKindNmEn
    frOrCls := r.shopChannel.getD ""
    productType := classifyProductType (salesOpStd r) r.sesn (rowYYOfYear r.saleYear)
    tagAmt := r.tagAmt }

/-- Embeds `stock_classified`: classify one inventory row (row_yy is
`SUBSTR(yymm,3,2)`). -/
def classifyStockRow (r : RawStockRow) : ClassifiedStockRow :=
  { yymm := yyyymm r.year r.month
    brdCd := r.brdCd
    prdtKindNmEn := r.prdtKindNmEn
    frOrCls := r.shopChannel.getD ""
    productType := classifyProductType (invOpStd r) r.sesn (rowYYOfYYMM (yyyymm r.year r.month))
    stockTagAmtExpected := r.stockTagAmtExpected
    stockQtyExpected := r.stockQtyExpected }

/-- One row of the sales query result set (after `GROUP BY`), keyed by the
uppercase output column names `MONTH`, `BRAND`, `ITEM_CATEGORY`, `CHANNEL`,
`PRODUCT_TYPE`, `TOTAL_AMOUNT`. -/
structure SalesResultRow where
  month : String
  brand : String
  itemCategory : String
  channel : String
  productType : String
  totalAmount : Option ℚ
deriving DecidableEq

/-- One row of the inventory query result set (after `GROUP BY`). -/
structure StockResultRow where
  month : String
  brand : String
  itemCategory : String
  channel : String
  productType : String
  totalAmount : Option ℚ
  totalQty : Option ℚ
deriving DecidableEq

/-- Grouping key of the final sales `SELECT`:
`(sale_ym, brd_cd, prdt_kind_nm_en, fr_or_cls, product_type)`. -/
def salesGroupKey (c : ClassifiedSalesRow) : String × String × String × String × String :=
  (c.saleYM, c.brdCd, c.prdtKindNmEn, c.frOrCls, c.productType)

/-- Grouping key of the final inventory `SELECT`. -/
def stockGroupKey (c : ClassifiedStockRow) : String × String × String × String × String :=
  (c.yymm, c.brdCd, c.prdtKindNmEn, c.frOrCls, c.productType)

/-- The whole sales query (`build_sales_aggregation_query`): filter, classify,
group, and sum `tag_amt` per group. -/
def salesQueryResults (startMonth endMonth : String) (rows : List RawSalesRow) :
    List SalesResultRow :=
  let classified := (rows.filter (salesWhere startMonth endMonth)).map classifySalesRow
  ((classified.map salesGroupKey).dedup).map (fun k =>
    { month := k.1, brand := k.2.1, itemCategory := k.2.2.1, channel := k.2.2.2.1,
      productType := k.2.2.2.2,
      totalAmount :=
        some (((classified.filter (fun c => salesGroupKey c == k)).map (fun c => c.tagAmt)).sum) })

/-- The whole inventory query (`build_inventory_aggregation_query`): filter
(including the slot-range filter), classify, group, and sum amount and
quantity per group. -/
def invQueryResults (startMonth endMonth : String) (rows : List RawStockRow) :
    List StockResultRow :=
  let classified :=
    (((rows.filter (invWhere startMonth endMonth)).filter invSlotOK).map classifyStockRow)
  ((classified.map stockGroupKey).dedup).map (fun k =>
    { month := k.1, brand := k.2.1, itemCategory := k.2.2.1, channel := k.2.2.2.1,
      productType := k.2.2.2.2,
      totalAmount :=
        some (((classified.filter (fun c => stockGroupKey c == k)).map
          (fun c => c.stockTagAmtExpected)).sum),
      totalQty :=
        some (((classified.filter (fun c => stockGroupKey c == k)).map
          (fun c => c.stockQtyExpected)).sum) })

/-! ## Python accumulation (`aggregate_sales_from_snowflake` lines 198–224,
`aggregate_inventory_from_snowflake` lines 173–204)

The `defaultdict(float)` keyed by the 5-tuple
`(brand, item_tab, month, channel, product_type)` is modelled as a total
function `AggKey → ℚ` with default value `0` (downstream consumers read
absent keys as `0` via `dict.get(key, 0)`); the multiset of touched keys is
tracked separately by `salesTouchedKeys` / `invTouchedKeys`. -/

abbrev AggKey := String × String × String × String × String

/-- The `BRAND_CODE_MAP` of both aggregation modules. -/
def brandCodeMap : List (String × String) :=
  [("M", "MLB"), ("I", "MLB KIDS"), ("X", "DISCOVERY")]

/-- Embeds `BRAND_CODE_MAP.get(brand_code, brand_code)`. -/
def brandDisplayName (code : String) : String :=
  (brandCodeMap.lookup code).getD code

/-- Embeds `float(x) if x else 0.0` on a nullable amount. -/
def floatOrZero (o : Option ℚ) : ℚ :=
  o.getD 0

/-- Sales channel mapping: `'FRS' if channel_raw == 'FR' else channel_raw`. -/
def salesChannelBucket (raw : String) : String :=
  if raw == "FR" then "FRS" else raw

/-- The aggregation keys one sales result row is accumulated into, in loop
order: for `item_tab` in `['전체', item_category]`, the umbrella-channel key
then the mapped-channel key. -/
def salesRowKeys (row : SalesResultRow) : List AggKey :=
  (["전체", row.itemCategory]).flatMap (fun itemTab =>
    [(brandDisplayName row.brand, itemTab, monthDisplay row.month, "전체", row.productType),
     (brandDisplayName row.brand, itemTab, monthDisplay row.month,
       salesChannelBucket row.channel, row.productType)])

/-- The aggregation keys one inventory result row is accumulated into, in
loop order: for each `item_tab`, the umbrella-channel key always, an `FRS`
key when the raw channel is `FR`, and an `HQ_OR` key when it is `HQ` or `OR`. -/
def invRowKeys (row : StockResultRow) : List AggKey :=
  (["전체", row.itemCategory]).flatMap (fun itemTab =>
    [(brandDisplayName row.brand, itemTab, monthDisplay row.month, "전체", row.productType)]
      ++ (if row.channel == "FR" then
            [(brandDisplayName row.brand, itemTab, monthDisplay row.month, "FRS",
              row.productType)]
          else [])
      ++ (if ["HQ", "OR"].contains row.channel then
            [(brandDisplayName row.brand, itemTab, monthDisplay row.month, "HQ_OR",
              row.productType)]
          else []))

/-- Embeds `agg_dict[key] += amount` on the functional dictionary. -/
def bump (f : AggKey → ℚ) (k : AggKey) (a : ℚ) : AggKey → ℚ :=
  fun k2 => if k2 = k then f k2 + a else f k2

/-- Process one sales result row: bump every key it maps to by its amount. -/
def applySalesResultRow (acc : AggKey → ℚ) (row : SalesResultRow) : AggKey → ℚ :=
  (salesRowKeys row).foldl (fun f k => bump f k (floatOrZero row.totalAmount)) acc

/-- Process one inventory result row (note: `total_qty` is read by the Python
loop but never accumulated; only the amount enters `agg_dict`). -/
def applyStockResultRow (acc : AggKey → ℚ) (row : StockResultRow) : AggKey → ℚ :=
  (invRowKeys row).foldl (fun f k => bump f k (floatOrZero row.totalAmount)) acc

/-- The sales accumulation loop over the query result set. -/
def salesAgg (rows : List SalesResultRow) : AggKey → ℚ :=
  rows.foldl applySalesResultRow (fun _ => 0)

/-- The inventory accumulation loop over the query result set. -/
def invAgg (rows : List StockResultRow) : AggKey → ℚ :=
  rows.foldl applyStockResultRow (fun _ => 0)

/-- All keys the sales loop touches (the key set of the Python dict, with
multiplicity and in insertion order). -/
def salesTouchedKeys (rows : List SalesResultRow) : List AggKey :=
  rows.flatMap salesRowKeys

/-- All keys the inventory loop touches. -/
def invTouchedKeys (rows : List StockResultRow) : List AggKey :=
  rows.flatMap invRowKeys

/-- End-to-end sales pipeline: SQL query simulation then Python accumulation
(`aggregate_sales_from_snowflake`). -/
def salesPipelineAgg (startMonth endMonth : String) (rows : List RawSalesRow) : AggKey → ℚ :=
  salesAgg (salesQueryResults startMonth endMonth rows)

/-- End-to-end inventory pipeline (`aggregate_inventory_from_snowflake`). -/
def invPipelineAgg (startMonth endMonth : String) (rows : List RawStockRow) : AggKey → ℚ :=
  invAgg (invQueryResults startMonth endMonth rows)

/-! ## Counting lemmas for the accumulation folds -/

/-- Number of occurrences of a key in a key list. -/
def countKey (k : AggKey) : List AggKey → Nat
  | [] => 0
  | k2 :: ks => countKey k ks + (if k = k2 then 1 else 0)

theorem foldl_bump_apply (ks : List AggKey) (acc : AggKey → ℚ) (a : ℚ) (k : AggKey) :
    (ks.foldl (fun f k2 => bump f k2 a) acc) k = acc k + a * countKey k ks := by
  induction ks generalizing acc with
  | nil => simp [countKey]
  | cons k1 ks ih =>
      simp only [List.foldl_cons, ih, countKey, bump]
      split_ifs with h <;> push_cast <;> ring

theorem salesAgg_foldl (rows : List SalesResultRow) (acc : AggKey → ℚ) (k : AggKey) :
    (rows.foldl applySalesResultRow acc) k
      = acc k + ((rows.map
          (fun r => floatOrZero r.totalAmount * countKey k (salesRowKeys r))).sum) := by
  induction rows generalizing acc with
  | nil => simp
  | cons r rows ih =>
      simp only [List.foldl_cons, ih, applySalesResultRow, foldl_bump_apply,
        List.map_cons, List.sum_cons]
      ring

/-- The sales accumulation is the per-row contribution sum. -/
theorem salesAgg_apply (rows : List SalesResultRow) (k : AggKey) :
    salesAgg rows k
      = ((rows.map (fun r => floatOrZero r.totalAmount * countKey k (salesRowKeys r))).sum) := by
  simp [salesAgg, salesAgg_foldl]

theorem invAgg_foldl (rows : List StockResultRow) (acc : AggKey → ℚ) (k : AggKey) :
    (rows.foldl applyStockResultRow acc) k
      = acc k + ((rows.map
          (fun r => floatOrZero r.totalAmount * countKey k (invRowKeys r))).sum) := by
  induction rows generalizing acc with
  | nil => simp
  | cons r rows ih =>
      simp only [List.foldl_cons, ih, applyStockResultRow, foldl_bump_apply,
        List.map_cons, List.sum_cons]
      ring

/-- The inventory accumulation is the per-row contribution sum. -/
theorem invAgg_apply (rows : List StockResultRow) (k : AggKey) :
    invAgg rows k
      = ((rows.map (fun r => floatOrZero r.totalAmount * countKey k (invRowKeys r))).sum) := by
  simp [invAgg, invAgg_foldl]

/-! ## Claims about the classification fallback chain (C1, C4) -/

/-- C1 (counterexample): a row with operational standard "ABC" — present, not
in either vocabulary, containing no two-digit run — and season code "25A" in
event year 24 is classified "outlet" by the code, although the claimed
season-code fallback (25 ≥ 24) would classify it "core": the `CASE` branch for
non-vocabulary strings never falls through to the season code. -/
theorem c1_counterexample :
    regexpSubstrTwoDigits "ABC" = none
    ∧ "ABC" ∉ coreVocab ∧ "ABC" ∉ outletVocab
    ∧ sqlGE (tryToNumber (some (strTake "25A" 2))) (tryToNumber (some "24")) = true
    ∧ classifyProductType (some "ABC") (some "25A") "24" = "outlet" := by
  refine ⟨by decide, by decide, by decide, by decide, by decide⟩

/-- C1 (amended): a row whose operational-standard string is present, not in
the FOCUS/INTRO/OUTLET/CARE/DONE vocabulary, and contains no two-digit digit
run is classified "outlet" directly — the season-code fallback is only reached
when the operational standard is absent, so the season code is never consulted
for such rows. -/
theorem c1_amended (s : String) (sesn : Option String) (rowYY : String)
    (hcore : s ∉ coreVocab) (houtlet : s ∉ outletVocab)
    (hnodigits : regexpSubstrTwoDigits s = none) :
    classifyProductType (some s) sesn rowYY = "outlet" := by
  simp only [classifyProductType]
  rw [if_neg hcore, if_neg houtlet, hnodigits]
  rfl

/-- Witness for `c1_amended` at a concrete input. -/
theorem c1_amended_witness :
    classifyProductType (some "XYZ") (some "24B") "25" = "outlet" :=
  c1_amended "XYZ" (some "24B") "25" (by decide) (by decide) (by decide)

/-- C4: a row whose resolved operational-standard string is exactly `FOCUS` or
`INTRO` is classified core, and exactly `OUTLET`, `CARE` or `DONE` outlet,
regardless of season code and event year; the match is exact (e.g. lowercase
"focus" is not recognized, falling into the year-comparison branch instead).
`classifyProductType` is the `CASE` expression shared verbatim by both the
sales and the inventory query. -/
theorem c4_vocabulary_exact_match :
    (∀ (sesn : Option String) (rowYY : String),
        classifyProductType (some "FOCUS") sesn rowYY = "core"
        ∧ classifyProductType (some "INTRO") sesn rowYY = "core"
        ∧ classifyProductType (some "OUTLET") sesn rowYY = "outlet"
        ∧ classifyProductType (some "CARE") sesn rowYY = "outlet"
        ∧ classifyProductType (some "DONE") sesn rowYY = "outlet")
    ∧ classifyProductType (some "focus") (some "99A") "00" = "outlet" := by
  exact ⟨fun sesn rowYY => ⟨rfl, rfl, rfl, rfl, rfl⟩, by decide⟩

/-! ## Claims about the remark-slot computation (C2, C3) -/

/-- C3 (counterexample): for event month 2024-03 the sales query selects
remark slot 1 (quarter 2024-01-01) while the inventory query computes
remark slot 2 (`FLOOR(3/3)+1` from its 2023-12 epoch): the two pipelines do
not compute the slot index from the same epoch and select different slots. -/
theorem c3_counterexample :
    salesRemarkIdx 2024 3 = some 1
    ∧ invRemarkNum 2024 3 = 2
    ∧ ((1 : Int) ≠ invRemarkNum 2024 3) := by
  refine ⟨by decide, by decide, by decide⟩

/-- Unfolds `List.lookup` on a cons cell, with a propositional condition. -/
theorem lookup_pair_cons (a k : Nat × Nat) (v : Nat) (es : List ((Nat × Nat) × Nat)) :
    List.lookup a ((k, v) :: es) = if a = k then some v else List.lookup a es := by
  rw [List.lookup_cons]
  cases h : a == k
  · rw [if_neg (by simpa using h)]
  · rw [if_pos (by simpa using h)]

/-- C3 (amended): both pipelines use a `floor(months/3)+1` slot rule but from
epochs one month apart (sales: calendar quarters anchored at 2024-01;
inventory: 2023-12).  For any event month with a valid sales slot the
inventory slot equals the sales slot on the first two months of a calendar
quarter and exceeds it by one on the third month (months divisible by 3). -/
theorem c3_amended (y m i : Nat) (hm1 : 1 ≤ m) (hm2 : m ≤ 12)
    (hidx : salesRemarkIdx y m = some i) :
    invRemarkNum y m = (i : Int) + (if m % 3 = 0 then 1 else 0) := by
  simp only [salesRemarkIdx, salesQuarterTable, lookup_pair_cons, List.lookup_nil,
    Prod.mk.injEq] at hidx
  split_ifs at hidx with h1 h2 h3 h4 h5 h6 h7 h8
  · obtain ⟨hy, hq⟩ := h1
    subst hy
    rw [Option.some.injEq] at hidx
    subst hidx
    simp only [quarterStartMonth] at hq
    have hm : m = 1 ∨ m = 2 ∨ m = 3 := by omega
    rcases hm with rfl | rfl | rfl <;> decide
  · obtain ⟨hy, hq⟩ := h2
    subst hy
    rw [Option.some.injEq] at hidx
    subst hidx
    simp only [quarterStartMonth] at hq
    have hm : m = 4 ∨ m = 5 ∨ m = 6 := by omega
    rcases hm with rfl | rfl | rfl <;> decide
  · obtain ⟨hy, hq⟩ := h3
    subst hy
    rw [Option.some.injEq] at hidx
    subst hidx
    simp only [quarterStartMonth] at hq
    have hm : m = 7 ∨ m = 8 ∨ m = 9 := by omega
    rcases hm with rfl | rfl | rfl <;> decide
  · obtain ⟨hy, hq⟩ := h4
    subst hy
    rw [Option.some.injEq] at hidx
    subst hidx
    simp only [quarterStartMonth] at hq
    have hm : m = 10 ∨ m = 11 ∨ m = 12 := by omega
    rcases hm with rfl | rfl | rfl <;> decide
  · obtain ⟨hy, hq⟩ := h5
    subst hy
    rw [Option.some.injEq] at hidx
    subst hidx
    simp only [quarterStartMonth] at hq
    have hm : m = 1 ∨ m = 2 ∨ m = 3 := by omega
    rcases hm with rfl | rfl | rfl <;> decide
  · obtain ⟨hy, hq⟩ := h6
    subst hy
    rw [Option.some.injEq] at hidx
    subst hidx
    simp only [quarterStartMonth] at hq
    have hm : m = 4 ∨ m = 5 ∨ m = 6 := by omega
    rcases hm with rfl | rfl | rfl <;> decide
  · obtain ⟨hy, hq⟩ := h7
    subst hy
    rw [Option.some.injEq] at hidx
    subst hidx
    simp only [quarterStartMonth] at hq
    have hm : m = 7 ∨ m = 8 ∨ m = 9 := by omega
    rcases hm with rfl | rfl | rfl <;> decide
  · obtain ⟨hy, hq⟩ := h8
    subst hy
    rw [Option.some.injEq] at hidx
    subst hidx
    simp only [quarterStartMonth] at hq
    have hm : m = 10 ∨ m = 11 ∨ m = 12 := by omega
    rcases hm with rfl | rfl | rfl <;> decide

/-- Witness for `c3_amended` at a concrete input. -/
theorem c3_amended_witness :
    invRemarkNum 2024 4 = ((2 : Nat) : Int) + (if 4 % 3 = 0 then 1 else 0) :=
  c3_amended 2024 4 2 (by decide) (by decide) (by decide)

/-- Refiltering by the slot-range predicate: pre-filtering the input rows by
`invSlotOK` does not change the doubly filtered row list of the inventory
query. -/
theorem filter_slotOK_absorb (p : RawStockRow → Bool) (rows : List RawStockRow) :
    ((rows.filter invSlotOK).filter p).filter invSlotOK = (rows.filter p).filter invSlotOK := by
  simp only [List.filter_filter]
  exact List.filter_congr fun a _ => by cases hs : invSlotOK a <;> cases hp : p a <;> rfl

/-- A concrete sales row dated 2023-10, i.e. before the remark table's range
(slot 0 by the quarterly formula; its quarter is absent from
`remark_normalized`). -/
def c2SalesRow : RawSalesRow :=
  { saleYear := 2023, saleMonth := 10, shopChannel := some "FR", brdCd := "M",
    sesn := some "25A", tagAmt := 500, parentPrdtKindCd := "A", prdtKindNmEn := "Bag",
    remark := fun _ => none }

/-- A concrete inventory row dated 2023-10 (slot 0, outside [1,15]). -/
def c2StockRow : RawStockRow :=
  { year := 2023, month := 10, shopChannel := some "FR", brdCd := "M",
    sesn := some "25A", stockQtyExpected := 1, stockTagAmtExpected := 700,
    parentPrdtKindCd := "A", prdtKindNmEn := "Bag", remark := fun _ => none }

/-- C2 (counterexample): a sales row whose event month 2023-10 has remark-slot
index 0 (outside [1,15]; equally, its quarter is not in the sales remark
table) is *not* dropped by the sales pipeline: it is classified through the
season-code fallback and contributes 500 to an aggregation key. -/
theorem c2_counterexample :
    invRemarkNum 2023 10 = 0
    ∧ salesRemarkIdx 2023 10 = none
    ∧ salesPipelineAgg "202310" "202511" [c2SalesRow] ("MLB", "전체", "2023.10", "전체", "core")
        = 500 := by
  refine ⟨by decide, by decide, ?_⟩
  have h1 : classifySalesRow c2SalesRow = ⟨"202310", "M", "Bag", "FR", "core", 500⟩ := by decide
  have h0 : salesWhere "202310" "202511" c2SalesRow = true := by decide
  have hq : salesQueryResults "202310" "202511" [c2SalesRow]
      = [⟨"202310", "M", "Bag", "FR", "core", some 500⟩] := by
    simp [salesQueryResults, List.filter, h0, h1, salesGroupKey]
  have hc : countKey ("MLB", "전체", "2023.10", "전체", "core")
      (salesRowKeys ⟨"202310", "M", "Bag", "FR", "core", some 500⟩) = 1 := by decide
  simp only [salesPipelineAgg, hq, salesAgg_apply]
  simp [hc, floatOrZero]

/-- C2 (amended): the *inventory* pipeline drops every row whose remark-slot
index is outside [1,15] before classification (pre-filtering its input by the
slot predicate changes nothing), while the *sales* pipeline drops no row on
slot grounds: a sales row whose quarter is outside the remark table merely
resolves to an absent operational standard and is classified via the
fallback chain. -/
theorem c2_amended :
    (∀ (startMonth endMonth : String) (rows : List RawStockRow),
        invPipelineAgg startMonth endMonth rows
          = invPipelineAgg startMonth endMonth (rows.filter invSlotOK))
    ∧ (∀ r : RawSalesRow, salesRemarkIdx r.saleYear r.saleMonth = none → salesOpStd r = none) := by
  constructor
  · intro s e rows
    simp only [invPipelineAgg, invQueryResults]
    rw [filter_slotOK_absorb]
  · intro r h
    simp [salesOpStd, h]

/-- Witness for `c2_amended` at concrete inputs. -/
theorem c2_amended_witness :
    invPipelineAgg "202310" "202511" [c2StockRow]
        = invPipelineAgg "202310" "202511" (List.filter invSlotOK [c2StockRow])
    ∧ salesOpStd c2SalesRow = none :=
  ⟨c2_amended.1 "202310" "202511" [c2StockRow], c2_amended.2 c2SalesRow (by decide)⟩

/-! ## Claims about the accumulation (C5, C9) -/

/-- Per-row key-count partition (sales): for a result row whose category is
one of the four item categories, the occurrences of the four
category-tab keys in its key list sum to the occurrences of the umbrella
item-tab key, for any fixed (brand, month, channel bucket, classification). -/
theorem salesRowKeys_count_partition (row : SalesResultRow)
    (hcat : row.itemCategory ∈ itemCategories) (b m ch pt : String) :
    (itemCategories.map (fun c => countKey (b, c, m, ch, pt) (salesRowKeys row))).sum
      = countKey (b, "전체", m, ch, pt) (salesRowKeys row) := by
  rcases row with ⟨mo, br, cat, rch, rpt, amt⟩
  simp only [itemCategories, List.mem_cons, List.not_mem_nil, or_false] at hcat
  rcases hcat with rfl | rfl | rfl | rfl <;>
    simp [salesRowKeys, countKey, itemCategories, Prod.mk.injEq]

/-- Per-row key-count partition (inventory). -/
theorem invRowKeys_count_partition (row : StockResultRow)
    (hcat : row.itemCategory ∈ itemCategories) (b m ch pt : String) :
    (itemCategories.map (fun c => countKey (b, c, m, ch, pt) (invRowKeys row))).sum
      = countKey (b, "전체", m, ch, pt) (invRowKeys row) := by
  rcases row with ⟨mo, br, cat, rch, rpt, amt, qty⟩
  simp only [itemCategories, List.mem_cons, List.not_mem_nil, or_false] at hcat
  rcases hcat with rfl | rfl | rfl | rfl <;>
    by_cases hfr : rch = "FR" <;> by_cases hhq : rch = "HQ" ∨ rch = "OR" <;>
      simp [invRowKeys, countKey, itemCategories, Prod.mk.injEq, hfr, hhq]

/-- C5: in both aggregations, for every fixed (brand, month, channel bucket,
classification), the accumulated amounts of the four individual item-category
tabs (Shoes, Headwear, Bag, Acc_etc) sum to the accumulated amount of the
umbrella "전체" item tab, provided every input row's category is one of the
four (which the SQL `WHERE prdt_kind_nm_en IN (…)` filter guarantees). -/
theorem c5_partition_invariant :
    (∀ (rows : List SalesResultRow), (∀ r ∈ rows, r.itemCategory ∈ itemCategories) →
      ∀ b m ch pt : String,
        (itemCategories.map (fun c => salesAgg rows (b, c, m, ch, pt))).sum
          = salesAgg rows (b, "전체", m, ch, pt))
    ∧ (∀ (rows : List StockResultRow), (∀ r ∈ rows, r.itemCategory ∈ itemCategories) →
      ∀ b m ch pt : String,
        (itemCategories.map (fun c => invAgg rows (b, c, m, ch, pt))).sum
          = invAgg rows (b, "전체", m, ch, pt)) := by
  constructor
  · intro rows hrows b m ch pt
    induction rows with
    | nil => simp [salesAgg_apply, itemCategories]
    | cons r rs ih =>
        have hr := hrows r (by simp)
        have hrs : ∀ x ∈ rs, x.itemCategory ∈ itemCategories := fun x hx => hrows x (by simp [hx])
        have hcount := salesRowKeys_count_partition r hr b m ch pt
        have hcountQ := congrArg (fun n : ℕ => (n : ℚ)) hcount
        have ihh := ih hrs
        simp only [salesAgg_apply, List.map_cons, List.sum_cons, List.map_nil, List.sum_nil,
          itemCategories] at ihh hcountQ ⊢
        push_cast at hcountQ
        linear_combination ihh + (floatOrZero r.totalAmount) * hcountQ
  · intro rows hrows b m ch pt
    induction rows with
    | nil => simp [invAgg_apply, itemCategories]
    | cons r rs ih =>
        have hr := hrows r (by simp)
        have hrs : ∀ x ∈ rs, x.itemCategory ∈ itemCategories := fun x hx => hrows x (by simp [hx])
        have hcount := invRowKeys_count_partition r hr b m ch pt
        have hcountQ := congrArg (fun n : ℕ => (n : ℚ)) hcount
        have ihh := ih hrs
        simp only [invAgg_apply, List.map_cons, List.sum_cons, List.map_nil, List.sum_nil,
          itemCategories] at ihh hcountQ ⊢
        push_cast at hcountQ
        linear_combination ihh + (floatOrZero r.totalAmount) * hcountQ

def c5SalesRow : SalesResultRow := ⟨"202511", "M", "Shoes", "FR", "core", some 300⟩

def c5StockRow : StockResultRow := ⟨"202511", "M", "Bag", "HQ", "outlet", some 200, some 3⟩

/-- Witness for `c5_partition_invariant` at concrete inputs. -/
theorem c5_partition_invariant_witness :
    ((itemCategories.map (fun c => salesAgg [c5SalesRow] ("MLB", c, "2025.11", "FRS", "core"))).sum
        = salesAgg [c5SalesRow] ("MLB", "전체", "2025.11", "FRS", "core"))
    ∧ ((itemCategories.map
          (fun c => invAgg [c5StockRow] ("MLB", c, "2025.11", "HQ_OR", "outlet"))).sum
        = invAgg [c5StockRow] ("MLB", "전체", "2025.11", "HQ_OR", "outlet")) :=
  ⟨c5_partition_invariant.1 [c5SalesRow] (by decide) "MLB" "2025.11" "FRS" "core",
   c5_partition_invariant.2 [c5StockRow] (by decide) "MLB" "2025.11" "HQ_OR" "outlet"⟩

/-- C9: both accumulation loops are order-independent — permuting the result
rows of a query yields the identical key-to-value mapping. -/
theorem c9_order_independence :
    (∀ (xs ys : List SalesResultRow), xs.Perm ys → salesAgg xs = salesAgg ys)
    ∧ (∀ (xs ys : List StockResultRow), xs.Perm ys → invAgg xs = invAgg ys) := by
  constructor
  · intro xs ys hp
    funext k
    rw [salesAgg_apply, salesAgg_apply]
    exact (hp.map _).sum_eq
  · intro xs ys hp
    funext k
    rw [invAgg_apply, invAgg_apply]
    exact (hp.map _).sum_eq

def c9SalesRowA : SalesResultRow := ⟨"202501", "M", "Shoes", "FR", "core", some 10⟩

def c9SalesRowB : SalesResultRow := ⟨"202502", "I", "Bag", "OR", "outlet", some 20⟩

def c9StockRowA : StockResultRow := ⟨"202501", "X", "Headwear", "HQ", "core", some 5, some 1⟩

def c9StockRowB : StockResultRow := ⟨"202503", "M", "Acc_etc", "FR", "outlet", some 7, some 2⟩

/-- Witness for `c9_order_independence` on two-row swaps. -/
theorem c9_order_independence_witness :
    salesAgg [c9SalesRowA, c9SalesRowB] = salesAgg [c9SalesRowB, c9SalesRowA]
    ∧ invAgg [c9StockRowA, c9StockRowB] = invAgg [c9StockRowB, c9StockRowA] :=
  ⟨c9_order_independence.1 _ _ (List.Perm.swap c9SalesRowB c9SalesRowA []),
   c9_order_independence.2 _ _ (List.Perm.swap c9StockRowB c9StockRowA [])⟩

/-! ## Claim C6: end-to-end single-row sales scenario -/

/-- The scenario row: brand code M, category Shoes, channel FR, tag amount
1000, dated 2025-11; its product's remark slot 8 (the sales slot for quarter
2025-10) holds "FOCUS", so the resolved remark value is FOCUS. -/
def c6Row : RawSalesRow :=
  { saleYear := 2025, saleMonth := 11, shopChannel := some "FR", brdCd := "M",
    sesn := some "25N", tagAmt := 1000, parentPrdtKindCd := "A", prdtKindNmEn := "Shoes",
    remark := fun i => if i = 8 then some "FOCUS" else none }

/-- C6: on exactly this one sales row the pipeline touches exactly the four
keys (MLB, 전체, 2025.11, 전체, core), (MLB, 전체, 2025.11, FRS, core),
(MLB, Shoes, 2025.11, 전체, core), (MLB, Shoes, 2025.11, FRS, core), each
accumulating 1000, and no key whose channel bucket is OR. -/
theorem c6_end_to_end :
    salesTouchedKeys (salesQueryResults "202401" "202511" [c6Row])
      = [("MLB", "전체", "2025.11", "전체", "core"), ("MLB", "전체", "2025.11", "FRS", "core"),
         ("MLB", "Shoes", "2025.11", "전체", "core"), ("MLB", "Shoes", "2025.11", "FRS", "core")]
    ∧ salesPipelineAgg "202401" "202511" [c6Row] ("MLB", "전체", "2025.11", "전체", "core") = 1000
    ∧ salesPipelineAgg "202401" "202511" [c6Row] ("MLB", "전체", "2025.11", "FRS", "core") = 1000
    ∧ salesPipelineAgg "202401" "202511" [c6Row] ("MLB", "Shoes", "2025.11", "전체", "core") = 1000
    ∧ salesPipelineAgg "202401" "202511" [c6Row] ("MLB", "Shoes", "2025.11", "FRS", "core") = 1000
    ∧ ((salesTouchedKeys (salesQueryResults "202401" "202511" [c6Row])).all
        (fun k => !(k.2.2.2.1 == "OR"))) = true := by
  have h1 : classifySalesRow c6Row = ⟨"202511", "M", "Shoes", "FR", "core", 1000⟩ := by decide
  have h0 : salesWhere "202401" "202511" c6Row = true := by decide
  have hq : salesQueryResults "202401" "202511" [c6Row]
      = [⟨"202511", "M", "Shoes", "FR", "core", some 1000⟩] := by
    simp [salesQueryResults, List.filter, h0, h1, salesGroupKey]
  have hk : ∀ k : AggKey,
      countKey k (salesRowKeys ⟨"202511", "M", "Shoes", "FR", "core", some 1000⟩) = 1 →
      salesPipelineAgg "202401" "202511" [c6Row] k = 1000 := by
    intro k hkc
    simp only [salesPipelineAgg, hq, salesAgg_apply]
    simp [hkc, floatOrZero]
  refine ⟨by decide, hk _ (by decide), hk _ (by decide), hk _ (by decide), hk _ (by decide),
    by decide⟩

/-! ## JSON serialization (preprocess_sales.py, preprocess_inventory.py)

The nested output dictionaries `brands[brand][item_tab][month]` are modelled
as functions from the (brand, item tab, month) triple to an optional month
record; a month record (`month_data` / `md`) is the ordered field list the
Python loops build.  Serialization-time rounding uses Python's `round`,
which rounds half to even. -/

/-- Python's `round(q)` to an integer: round half to even. -/
def pyRound (q : ℚ) : ℤ :=
  let f := ⌊q⌋
  if q - f < 1 / 2 then f
  else if q - f > 1 / 2 then f + 1
  else if f % 2 = 0 then f else f + 1

/-- The `ANALYSIS_MONTHS` list of both preprocess scripts. -/
def analysisMonths : List String :=
  ["2024.01", "2024.02", "2024.03", "2024.04", "2024.05", "2024.06",
   "2024.07", "2024.08", "2024.09", "2024.10", "2024.11", "2024.12",
   "2025.01", "2025.02", "2025.03", "2025.04", "2025.05", "2025.06",
   "2025.07", "2025.08", "2025.09", "2025.10", "2025.11"]

/-- The `VALID_BRANDS` set (iteration order fixed to the three display names). -/
def validBrands : List String := ["MLB", "MLB KIDS", "DISCOVERY"]

/-- The five item tabs of the output JSON. -/
def itemTabs : List String := ["전체", "Shoes", "Headwear", "Bag", "Acc_etc"]

/-- One month record: the ordered `field name → value` list. -/
abbrev MonthData := List (String × ℚ)

/-- The `month_data` record of `convert_sales_to_json_structure` (preprocess_sales.py
lines 83–91): for channel_group in [전체, FRS, OR] and op_group in
[core, outlet], field `f"{channel_group}_{op_group}"` holds
`round(agg_dict.get(key, 0.0))` (the loops are unrolled over their constant
ranges, yielding the six fields in loop order). -/
def salesMonthData (agg : AggKey → ℚ) (b t m : String) : MonthData :=
  [("전체_core", ((pyRound (agg (b, t, m, "전체", "core")) : ℤ) : ℚ)),
   ("전체_outlet", ((pyRound (agg (b, t, m, "전체", "outlet")) : ℤ) : ℚ)),
   ("FRS_core", ((pyRound (agg (b, t, m, "FRS", "core")) : ℤ) : ℚ)),
   ("FRS_outlet", ((pyRound (agg (b, t, m, "FRS", "outlet")) : ℤ) : ℚ)),
   ("OR_core", ((pyRound (agg (b, t, m, "OR", "core")) : ℤ) : ℚ)),
   ("OR_outlet", ((pyRound (agg (b, t, m, "OR", "outlet")) : ℤ) : ℚ))]

/-- The `md` record of `convert_to_json` (preprocess_inventory.py lines 107–113): for op
in [core, outlet], the rounded 전체/FRS/HQ_OR fields and the *unrounded*
`OR_sales_{op}` field taken from the sales-OR dictionary (loop unrolled in
order). -/
def invMonthData (invAggD salesOr : AggKey → ℚ) (b t m : String) : MonthData :=
  [("전체_core", ((pyRound (invAggD (b, t, m, "전체", "core")) : ℤ) : ℚ)),
   ("FRS_core", ((pyRound (invAggD (b, t, m, "FRS", "core")) : ℤ) : ℚ)),
   ("HQ_OR_core", ((pyRound (invAggD (b, t, m, "HQ_OR", "core")) : ℤ) : ℚ)),
   ("OR_sales_core", salesOr (b, t, m, "OR", "core")),
   ("전체_outlet", ((pyRound (invAggD (b, t, m, "전체", "outlet")) : ℤ) : ℚ)),
   ("FRS_outlet", ((pyRound (invAggD (b, t, m, "FRS", "outlet")) : ℤ) : ℚ)),
   ("HQ_OR_outlet", ((pyRound (invAggD (b, t, m, "HQ_OR", "outlet")) : ℤ) : ℚ)),
   ("OR_sales_outlet", salesOr (b, t, m, "OR", "outlet"))]

/-- Gregorian leap year (Python `calendar`). -/
def isLeapYear (y : Nat) : Bool :=
  (y % 4 == 0 && y % 100 != 0) || y % 400 == 0

/-- Embeds `calendar.monthrange(year, month)[1]`: days of the Gregorian month. -/
def getDaysInMonth (y m : Nat) : Nat :=
  if m == 2 then (if isLeapYear y then 29 else 28)
  else if [4, 6, 9, 11].contains m then 30 else 31

/-- Embeds `int(month[:4])` of a `YYYY.MM` display month. -/
def parseYearOfDisplay (s : String) : Nat :=
  digitsToNat (strTake s 4).data

/-- Embeds `int(month[5:7])` of a `YYYY.MM` display month. -/
def parseMonthOfDisplay (s : String) : Nat :=
  digitsToNat (strTake (strDrop s 5) 2).data

/-- Insertion into a sorted string list (helper for `sortStrings`). -/
def insertSorted (x : String) : List String → List String
  | [] => [x]
  | y :: ys => if strLe x y then x :: y :: ys else y :: insertSorted x ys

/-- Python `sorted(...)` on strings (insertion sort over `strLe`). -/
def sortStrings (l : List String) : List String :=
  l.foldr insertSorted []

/-- The sales output JSON (`convert_sales_to_json_structure`). -/
structure SalesOutput where
  brands : String × String × String → Option MonthData
  months : List String
  unexpectedCategories : List String

/-- Embeds `convert_sales_to_json_structure`: a month record for every
(valid brand, item tab, analysis month) triple. -/
def convertSalesToJsonStructure (agg : AggKey → ℚ) (unexpected : List String) : SalesOutput :=
  { brands := fun k =>
      if validBrands.contains k.1 && itemTabs.contains k.2.1 && analysisMonths.contains k.2.2
      then some (salesMonthData agg k.1 k.2.1 k.2.2) else none
    months := analysisMonths
    unexpectedCategories := sortStrings unexpected }

/-- The inventory output JSON. -/
structure InvOutput where
  brands : String × String × String → Option MonthData
  months : List String
  daysInMonth : String → Option Nat
  unexpectedCategories : List String

/-- Embeds `convert_to_json` of preprocess_inventory.py. -/
def convertToJson (invAggD salesOr : AggKey → ℚ) (unexpected : List String) : InvOutput :=
  { brands := fun k =>
      if validBrands.contains k.1 && itemTabs.contains k.2.1 && analysisMonths.contains k.2.2
      then some (invMonthData invAggD salesOr k.1 k.2.1 k.2.2) else none
    months := analysisMonths
    daysInMonth := fun m =>
      if analysisMonths.contains m
      then some (getDaysInMonth (parseYearOfDisplay m) (parseMonthOfDisplay m)) else none
    unexpectedCategories := sortStrings unexpected }

/-! ## Snapshot merge (preprocess_inventory.py `main`, lines 127–181) -/

/-- The frozen snapshot JSON, as nested key/value lists (Python dicts have
distinct keys; where a proof needs that, it is an explicit hypothesis). -/
structure SnapshotJson where
  brands : List (String × List (String × List (String × MonthData)))
  months : List String
  daysInMonth : List (String × Nat)

/-- The hardcoded snapshot cutoff `"2025.11"`. -/
def cutoffMonth : String := "2025.11"

/-- The (brand, item tab, month) ↦ month-record entries of a snapshot, in the
nested iteration order of the merge loops. -/
def snapshotBrandEntries (snap : SnapshotJson) :
    List ((String × String × String) × MonthData) :=
  snap.brands.flatMap (fun bt =>
    bt.2.flatMap (fun tt => tt.2.map (fun mv => ((bt.1, tt.1, mv.1), mv.2))))

/-- The merge loop: walk the snapshot entries in order and overwrite the
fresh dictionary at every key whose month is at or below the cutoff
(`if month <= "2025.11": result[...] = snapshot[...]`). -/
def freezeFold {κ β : Type} [DecidableEq κ] (monthOf : κ → String) :
    List (κ × β) → (κ → Option β) → (κ → Option β)
  | [], acc => acc
  | e :: es, acc =>
      freezeFold monthOf es
        (if strLe (monthOf e.1) cutoffMonth then Function.update acc e.1 (some e.2) else acc)

/-- The whole snapshot merge of `main` (preprocess_inventory.py lines
151–176): snapshot brand entries overwrite the fresh result at months ≤
cutoff; the month lists are union-ed, deduplicated and sorted; the
`daysInMonth` entries of the snapshot overwrite at months ≤ cutoff. -/
def mergeSnapshot (res : InvOutput) (snap : SnapshotJson) : InvOutput :=
  { brands := freezeFold (fun k => k.2.2) (snapshotBrandEntries snap) res.brands
    months := sortStrings ((snap.months ++ res.months).dedup)
    daysInMonth := freezeFold (fun m => m) snap.daysInMonth res.daysInMonth
    unexpectedCategories := res.unexpectedCategories }

/-- Embeds `main` of preprocess_inventory.py after data loading: build the fresh
JSON, then merge the frozen snapshot over it — or skip the merge silently
when the snapshot file does not exist (`snapshot_data` stays `None`). -/
def runInventoryMain (snapshotFile : Option SnapshotJson)
    (invAggD salesOr : AggKey → ℚ) : InvOutput :=
  let result := convertToJson invAggD salesOr []
  match snapshotFile with
  | some snap => mergeSnapshot result snap
  | none => result

/-! ## Lemmas about the merge fold and sorting -/

theorem mem_insertSorted (a x : String) (l : List String) :
    a ∈ insertSorted x l ↔ a = x ∨ a ∈ l := by
  induction l with
  | nil => simp [insertSorted]
  | cons y ys ih =>
      simp only [insertSorted]
      split_ifs with h
      · simp
      · simp [ih]
        tauto

theorem mem_sortStrings (a : String) (l : List String) :
    a ∈ sortStrings l ↔ a ∈ l := by
  induction l with
  | nil => simp [sortStrings]
  | cons y ys ih =>
      simp only [sortStrings, List.foldr_cons] at ih ⊢
      rw [mem_insertSorted]
      simp [ih]

theorem freezeFold_not_mem {κ β : Type} [DecidableEq κ] (monthOf : κ → String)
    (entries : List (κ × β)) (acc : κ → Option β) (k : κ)
    (h : ∀ e ∈ entries, e.1 ≠ k) :
    freezeFold monthOf entries acc k = acc k := by
  induction entries generalizing acc with
  | nil => rfl
  | cons e es ih =>
      have he : e.1 ≠ k := h e (by simp)
      have hes : ∀ x ∈ es, x.1 ≠ k := fun x hx => h x (by simp [hx])
      simp only [freezeFold]
      rw [ih _ hes]
      split_ifs with hc
      · exact Function.update_noteq (fun hh => he hh.symm) _ _
      · rfl

theorem freezeFold_mem {κ β : Type} [DecidableEq κ] (monthOf : κ → String)
    (entries : List (κ × β)) (acc : κ → Option β) (k : κ) (v : β)
    (hnd : (entries.map (fun e => e.1)).Nodup) (hm : (k, v) ∈ entries)
    (hc : strLe (monthOf k) cutoffMonth = true) :
    freezeFold monthOf entries acc k = some v := by
  induction entries generalizing acc with
  | nil => cases hm
  | cons e es ih =>
      simp only [List.map_cons, List.nodup_cons] at hnd
      rcases List.mem_cons.mp hm with heq | hmem
      · have hknotin : ∀ x ∈ es, x.1 ≠ k := by
          intro x hx hxk
          apply hnd.1
          rw [← heq]
          exact hxk ▸ List.mem_map_of_mem (fun e => e.1) hx
        simp only [freezeFold]
        rw [freezeFold_not_mem _ _ _ _ hknotin, ← heq]
        rw [if_pos hc]
        exact Function.update_same _ _ _
      · simp only [freezeFold]
        exact ih _ hnd.2 hmem

theorem freezeFold_after {κ β : Type} [DecidableEq κ] (monthOf : κ → String)
    (entries : List (κ × β)) (acc : κ → Option β) (k : κ)
    (hc : ¬ strLe (monthOf k) cutoffMonth = true) :
    freezeFold monthOf entries acc k = acc k := by
  induction entries generalizing acc with
  | nil => rfl
  | cons e es ih =>
      simp only [freezeFold]
      rw [ih]
      split_ifs with h
      · by_cases hek : e.1 = k
        · rw [hek] at h
          exact absurd h hc
        · exact Function.update_noteq (fun hh => hek hh.symm) _ _
      · rfl

/-! ## Claim C7: snapshot-merge precedence -/

/-- C7: in the snapshot merge, (i) every (brand, item tab, month) entry of the
frozen snapshot with month ≤ the cutoff "2025.11" overwrites the fresh value,
(ii) the merged value at any month strictly after the cutoff is the fresh
value, (iii) the merged month list is the union of the snapshot's and the
fresh months, and (iv)/(v) `daysInMonth` follows the same precedence (frozen
wins at or below the cutoff, months after the cutoff stay fresh). -/
theorem c7_merge_precedence :
    (∀ (res : InvOutput) (snap : SnapshotJson) (b t m : String) (v : MonthData),
        ((snapshotBrandEntries snap).map (fun e => e.1)).Nodup →
        ((b, t, m), v) ∈ snapshotBrandEntries snap →
        strLe m cutoffMonth = true →
        (mergeSnapshot res snap).brands (b, t, m) = some v)
    ∧ (∀ (res : InvOutput) (snap : SnapshotJson) (b t m : String),
        ¬ strLe m cutoffMonth = true →
        (mergeSnapshot res snap).brands (b, t, m) = res.brands (b, t, m))
    ∧ (∀ (res : InvOutput) (snap : SnapshotJson) (m : String),
        m ∈ (mergeSnapshot res snap).months ↔ m ∈ snap.months ∨ m ∈ res.months)
    ∧ (∀ (res : InvOutput) (snap : SnapshotJson) (m : String) (d : Nat),
        (snap.daysInMonth.map (fun e => e.1)).Nodup →
        (m, d) ∈ snap.daysInMonth →
        strLe m cutoffMonth = true →
        (mergeSnapshot res snap).daysInMonth m = some d)
    ∧ (∀ (res : InvOutput) (snap : SnapshotJson) (m : String),
        ¬ strLe m cutoffMonth = true →
        (mergeSnapshot res snap).daysInMonth m = res.daysInMonth m) := by
  refine ⟨?_, ?_, ?_, ?_, ?_⟩
  · intro res snap b t m v hnd hm hc
    exact freezeFold_mem _ _ _ _ _ hnd hm hc
  · intro res snap b t m hc
    exact freezeFold_after _ _ _ _ hc
  · intro res snap m
    simp [mergeSnapshot, mem_sortStrings, List.mem_dedup]
  · intro res snap m d hnd hm hc
    exact freezeFold_mem _ _ _ _ _ hnd hm hc
  · intro res snap m hc
    exact freezeFold_after _ _ _ _ hc

/-- A concrete frozen snapshot: one brand/tab with months 2025.11 (at cutoff)
and 2025.12 (after cutoff). -/
def c7Snap : SnapshotJson :=
  { brands := [("MLB", [("전체", [("2025.11", [("전체_core", 42)]),
      ("2025.12", [("전체_core", 7)])])])]
    months := ["2025.10", "2025.11", "2025.12"]
    daysInMonth := [("2025.11", 30), ("2025.12", 31)] }

/-- A concrete fresh result for the merge witness. -/
def c7Fresh : InvOutput := convertToJson (fun _ => 0) (fun _ => 0) []

/-- Witness for `c7_merge_precedence` on a concrete snapshot and fresh result. -/
theorem c7_merge_precedence_witness :
    (mergeSnapshot c7Fresh c7Snap).brands ("MLB", "전체", "2025.11") = some [("전체_core", 42)]
    ∧ (mergeSnapshot c7Fresh c7Snap).brands ("MLB", "전체", "2025.12")
        = c7Fresh.brands ("MLB", "전체", "2025.12")
    ∧ ("2025.12" ∈ (mergeSnapshot c7Fresh c7Snap).months
        ↔ "2025.12" ∈ c7Snap.months ∨ "2025.12" ∈ c7Fresh.months)
    ∧ (mergeSnapshot c7Fresh c7Snap).daysInMonth "2025.11" = some 30
    ∧ (mergeSnapshot c7Fresh c7Snap).daysInMonth "2025.12"
        = c7Fresh.daysInMonth "2025.12" :=
  ⟨c7_merge_precedence.1 c7Fresh c7Snap "MLB" "전체" "2025.11" [("전체_core", 42)]
      (by decide) (by decide) (by decide),
   c7_merge_precedence.2.1 c7Fresh c7Snap "MLB" "전체" "2025.12" (by decide),
   c7_merge_precedence.2.2.1 c7Fresh c7Snap "2025.12",
   c7_merge_precedence.2.2.2.1 c7Fresh c7Snap "2025.11" 30 (by decide) (by decide) (by decide),
   c7_merge_precedence.2.2.2.2 c7Fresh c7Snap "2025.12" (by decide)⟩

/-! ## Claim C8: rounding at serialization -/

/-- A sales-OR dictionary holding the non-integer value 1/2 at one OR key. -/
def c8SalesOr : AggKey → ℚ :=
  fun k => if k = ("MLB", "전체", "2024.01", "OR", "core") then 1 / 2 else 0

/-- C8 (counterexample): the inventory output writes the `OR_sales_core`
field *unrounded* — with accumulated OR-sales value 1/2 the serialized field
holds 1/2, which is not a whole currency unit (rounding would give 0), so not
every amount field of the output JSON is rounded. -/
theorem c8_counterexample :
    (invMonthData (fun _ => 0) c8SalesOr "MLB" "전체" "2024.01").lookup "OR_sales_core"
        = some ((1 : ℚ) / 2)
    ∧ ((1 : ℚ) / 2) ≠ ((pyRound ((1 : ℚ) / 2) : ℤ) : ℚ) := by
  constructor
  · simp [invMonthData, List.lookup, c8SalesOr]
  · have h : pyRound ((1 : ℚ) / 2) = 0 := by norm_num [pyRound]
    rw [h]
    norm_num

/-- C8 (amended): every `{channelBucket}_{classification}` field of the sales
output (전체/FRS/OR) and of the inventory output (전체/FRS/HQ_OR) is written
as `round(accumulated value)` at serialization time; the companion
`OR_sales_{classification}` fields of the inventory output are written
unrounded; and accumulation itself applies no rounding — the running totals
are the exact sums of the raw per-row contributions. -/
theorem c8_amended :
    (∀ (agg : AggKey → ℚ) (b t m : String),
        (salesMonthData agg b t m).lookup "전체_core"
            = some ((pyRound (agg (b, t, m, "전체", "core")) : ℤ) : ℚ)
        ∧ (salesMonthData agg b t m).lookup "전체_outlet"
            = some ((pyRound (agg (b, t, m, "전체", "outlet")) : ℤ) : ℚ)
        ∧ (salesMonthData agg b t m).lookup "FRS_core"
            = some ((pyRound (agg (b, t, m, "FRS", "core")) : ℤ) : ℚ)
        ∧ (salesMonthData agg b t m).lookup "FRS_outlet"
            = some ((pyRound (agg (b, t, m, "FRS", "outlet")) : ℤ) : ℚ)
        ∧ (salesMonthData agg b t m).lookup "OR_core"
            = some ((pyRound (agg (b, t, m, "OR", "core")) : ℤ) : ℚ)
        ∧ (salesMonthData agg b t m).lookup "OR_outlet"
            = some ((pyRound (agg (b, t, m, "OR", "outlet")) : ℤ) : ℚ))
    ∧ (∀ (invAggD salesOr : AggKey → ℚ) (b t m : String),
        (invMonthData invAggD salesOr b t m).lookup "전체_core"
            = some ((pyRound (invAggD (b, t, m, "전체", "core")) : ℤ) : ℚ)
        ∧ (invMonthData invAggD salesOr b t m).lookup "FRS_core"
            = some ((pyRound (invAggD (b, t, m, "FRS", "core")) : ℤ) : ℚ)
        ∧ (invMonthData invAggD salesOr b t m).lookup "HQ_OR_core"
            = some ((pyRound (invAggD (b, t, m, "HQ_OR", "core")) : ℤ) : ℚ)
        ∧ (invMonthData invAggD salesOr b t m).lookup "OR_sales_core"
            = some (salesOr (b, t, m, "OR", "core"))
        ∧ (invMonthData invAggD salesOr b t m).lookup "전체_outlet"
            = some ((pyRound (invAggD (b, t, m, "전체", "outlet")) : ℤ) : ℚ)
        ∧ (invMonthData invAggD salesOr b t m).lookup "FRS_outlet"
            = some ((pyRound (invAggD (b, t, m, "FRS", "outlet")) : ℤ) : ℚ)
        ∧ (invMonthData invAggD salesOr b t m).lookup "HQ_OR_outlet"
            = some ((pyRound (invAggD (b, t, m, "HQ_OR", "outlet")) : ℤ) : ℚ)
        ∧ (invMonthData invAggD salesOr b t m).lookup "OR_sales_outlet"
            = some (salesOr (b, t, m, "OR", "outlet")))
    ∧ (∀ (rows : List SalesResultRow) (k : AggKey),
        salesAgg rows k
          = ((rows.map
              (fun r => floatOrZero r.totalAmount * countKey k (salesRowKeys r))).sum))
    ∧ (∀ (rows : List StockResultRow) (k : AggKey),
        invAgg rows k
          = ((rows.map
              (fun r => floatOrZero r.totalAmount * countKey k (invRowKeys r))).sum)) := by
  refine ⟨?_, ?_, salesAgg_apply, invAgg_apply⟩
  · intro agg b t m
    refine ⟨?_, ?_, ?_, ?_, ?_, ?_⟩ <;> simp [salesMonthData, List.lookup]
  · intro invAggD salesOr b t m
    refine ⟨?_, ?_, ?_, ?_, ?_, ?_, ?_, ?_⟩ <;> simp [invMonthData, List.lookup]

/-! ## Claim C10: missing snapshot file -/

/-- C10: when the frozen snapshot file does not exist, the inventory `main`
does not fail: it silently skips the merge and the written output is exactly
the freshly computed JSON, for every (brand, item tab, month) — including
months at or below the snapshot cutoff, which are therefore recomputed
rather than preserved. -/
theorem c10_missing_snapshot (invAggD salesOr : AggKey → ℚ) :
    runInventoryMain none invAggD salesOr = convertToJson invAggD salesOr []
    ∧ (∀ b t m : String, strLe m cutoffMonth = true →
        (runInventoryMain none invAggD salesOr).brands (b, t, m)
          = (convertToJson invAggD salesOr []).brands (b, t, m)) :=
  ⟨rfl, fun _ _ _ _ => rfl⟩

/-- Witness for `c10_missing_snapshot` at concrete inputs. -/
theorem c10_missing_snapshot_witness :
    (runInventoryMain none (fun _ => 0) (fun _ => 0)).brands ("MLB", "전체", "2024.03")
      = (convertToJson (fun _ => 0) (fun _ => 0) []).brands ("MLB", "전체", "2024.03") :=
  (c10_missing_snapshot (fun _ => 0) (fun _ => 0)).2 "MLB" "전체" "2024.03" (by decide)
